import Mathlib

/-!
Shallow embedding of hyper's lower-level server connection API
(src/server/conn.rs): the protocol configuration `Http`, the polymorphic
`Connection` over either an HTTP/1 dispatcher or an HTTP/2 server driver,
the h1-to-h2 fallback transition, connection teardown into `Parts`, the
upgrade paths, and the `Serve` stream pairing incoming IOs with services.

Driver internals (the proto module, the error type, the Rewind adapter and
the upgrade handle) are not part of the embedded file; they are modelled
from the specification's driver and error interfaces, each marked in its
doc comment. Polling is embedded by supplying the results of the inner
driver polls as an explicit list (an oracle): each list element is what one
inner poll of the active driver returned, and the embedded poll loops fold
over it exactly as the source loops do.
-/

namespace HyperServerConn

/-- Byte buffers (the Bytes type of the source) are modelled as lists of
natural numbers. -/
abbrev ByteBuf := List Nat

/-- Modelled from the spec: the executor handle (crate::common::exec::Exec,
not under src), an opaque cloneable capability used to spawn background
tasks; only its default variant is needed here. -/
inductive ExecHandle where
  | Default
deriving DecidableEq, Repr

/-- Modelled from the spec: the h2 crate's server Builder (an external
collaborator), holding the three HTTP/2 settings of the data model:
initial stream window size (default 65535), initial connection window size
(default 65535) and max concurrent streams (default unlimited). Each
setter overwrites its field. -/
structure H2Builder where
  initial_window_size : Nat := 65535
  initial_connection_window_size : Nat := 65535
  max_concurrent_streams : Option Nat := none
deriving DecidableEq, Repr

/-- Setter for the initial stream window size of the h2 builder
(h2 crate method initial_window_size). -/
def H2Builder.set_initial_window_size (b : H2Builder) (sz : Nat) : H2Builder :=
  { b with initial_window_size := sz }

/-- Setter for the initial connection window size of the h2 builder
(h2 crate method initial_connection_window_size). -/
def H2Builder.set_initial_connection_window_size (b : H2Builder) (sz : Nat) : H2Builder :=
  { b with initial_connection_window_size := sz }

/-- Setter for the max concurrent streams of the h2 builder
(h2 crate method max_concurrent_streams). -/
def H2Builder.set_max_concurrent_streams (b : H2Builder) (max : Nat) : H2Builder :=
  { b with max_concurrent_streams := some max }

/-- The internal mode of the HTTP protocol (enum ConnectionMode in
src/server/conn.rs). -/
inductive ConnectionMode where
  | H1Only
  | H2Only
  | Fallback
deriving DecidableEq, Repr

/-- A lower-level configuration of the HTTP protocol (struct Http in
src/server/conn.rs). -/
structure Http (E : Type) where
  exec : E
  h1_half_close : Bool
  h1_writev : Bool
  h2_builder : H2Builder
  mode : ConnectionMode
  keep_alive : Bool
  max_buf_size : Option Nat
  pipeline_flush : Bool
deriving DecidableEq, Repr

/-- Http::new from src/server/conn.rs. -/
def Http.new : Http ExecHandle :=
  { exec := ExecHandle.Default
    h1_half_close := true
    h1_writev := true
    h2_builder := {}
    mode := ConnectionMode.Fallback
    keep_alive := true
    max_buf_size := none
    pipeline_flush := false }

variable {T S E U I F J : Type}

/-- Http::http1_only from src/server/conn.rs. -/
def Http.http1_only (self : Http E) (val : Bool) : Http E :=
  if val then { self with mode := ConnectionMode.H1Only }
  else { self with mode := ConnectionMode.Fallback }

/-- Http::http1_half_close from src/server/conn.rs. -/
def Http.http1_half_close (self : Http E) (val : Bool) : Http E :=
  { self with h1_half_close := val }

/-- Http::http1_writev from src/server/conn.rs. -/
def Http.http1_writev (self : Http E) (val : Bool) : Http E :=
  { self with h1_writev := val }

/-- Http::http2_only from src/server/conn.rs. -/
def Http.http2_only (self : Http E) (val : Bool) : Http E :=
  if val then { self with mode := ConnectionMode.H2Only }
  else { self with mode := ConnectionMode.Fallback }

/-- Http::http2_initial_stream_window_size from src/server/conn.rs: the
impl Into of Option is modelled by taking the Option directly; the none
case leaves the configuration untouched. -/
def Http.http2_initial_stream_window_size (self : Http E) (sz : Option Nat) : Http E :=
  match sz with
  | some sz => { self with h2_builder := self.h2_builder.set_initial_window_size sz }
  | none => self

/-- Http::http2_initial_connection_window_size from src/server/conn.rs. -/
def Http.http2_initial_connection_window_size (self : Http E) (sz : Option Nat) : Http E :=
  match sz with
  | some sz => { self with h2_builder := self.h2_builder.set_initial_connection_window_size sz }
  | none => self

/-- Http::http2_max_concurrent_streams from src/server/conn.rs. -/
def Http.http2_max_concurrent_streams (self : Http E) (max : Option Nat) : Http E :=
  match max with
  | some max => { self with h2_builder := self.h2_builder.set_max_concurrent_streams max }
  | none => self

/-- Modelled from the spec: proto::h1::MINIMUM_MAX_BUFFER_SIZE (the proto
module is not under src); the spec fixes the minimum h1 buffer size at
8192. -/
def MINIMUM_MAX_BUFFER_SIZE : Nat := 8192

/-- Http::max_buf_size from src/server/conn.rs; the assert that panics
below the minimum is modelled by returning none. Named set_max_buf_size
here because the field projection Http.max_buf_size carries the source
method's name. -/
def Http.set_max_buf_size (self : Http E) (max : Nat) : Option (Http E) :=
  if MINIMUM_MAX_BUFFER_SIZE ≤ max then some { self with max_buf_size := some max }
  else none

/-- Modelled from the spec: the h1 connection state proto::Conn (the proto
module is not under src). Per the driver interface section it records the
io, the bytes read but not yet consumed as HTTP, and the four h1 tunables
plus the max buffer size; Conn::new leaves every tunable at its default. -/
structure ProtoConn (T : Type) where
  io : T
  read_buf : ByteBuf
  keep_alive : Bool
  half_close : Bool
  writev : Bool
  flush_pipeline : Bool
  max_buf_size : Option Nat
deriving DecidableEq, Repr

/-- Modelled from the spec: proto::Conn::new. -/
def ProtoConn.new (io : T) : ProtoConn T :=
  { io := io, read_buf := [], keep_alive := true, half_close := true,
    writev := true, flush_pipeline := false, max_buf_size := none }

/-- Modelled from the spec: proto::Conn::disable_keep_alive. -/
def ProtoConn.disable_keep_alive (c : ProtoConn T) : ProtoConn T :=
  { c with keep_alive := false }

/-- Modelled from the spec: proto::Conn::set_disable_half_close. -/
def ProtoConn.set_disable_half_close (c : ProtoConn T) : ProtoConn T :=
  { c with half_close := false }

/-- Modelled from the spec: proto::Conn::set_write_strategy_flatten. -/
def ProtoConn.set_write_strategy_flatten (c : ProtoConn T) : ProtoConn T :=
  { c with writev := false }

/-- Modelled from the spec: proto::Conn::set_flush_pipeline. -/
def ProtoConn.set_flush_pipeline (c : ProtoConn T) (b : Bool) : ProtoConn T :=
  { c with flush_pipeline := b }

/-- Modelled from the spec: proto::Conn::set_max_buf_size. -/
def ProtoConn.set_max_buf_size (c : ProtoConn T) (m : Nat) : ProtoConn T :=
  { c with max_buf_size := some m }

/-- Modelled from the spec: proto::h1::dispatch::Server, the dispatcher
holding the per-connection Service; into_service yields it back. -/
structure ServerDispatch (S : Type) where
  service : S
deriving DecidableEq, Repr

/-- Modelled from the spec: proto::h1::dispatch::Server::new. -/
def ServerDispatch.new (service : S) : ServerDispatch S := ⟨service⟩

/-- Modelled from the spec: the dispatcher yields back its Service. -/
def ServerDispatch.into_service (d : ServerDispatch S) : S := d.service

/-- Modelled from the spec: proto::h1::Dispatcher, the HTTP/1 driver
pairing the h1 connection state with the dispatcher; into_inner
disassembles it into (io, unread bytes, dispatcher). -/
structure H1Dispatcher (T S : Type) where
  conn : ProtoConn T
  dispatch : ServerDispatch S
deriving DecidableEq, Repr

/-- Modelled from the spec: proto::h1::Dispatcher::new (arguments in the
source order: dispatcher first, connection second). -/
def H1Dispatcher.new (dispatch : ServerDispatch S) (conn : ProtoConn T) : H1Dispatcher T S :=
  ⟨conn, dispatch⟩

/-- Modelled from the spec: H1 into_inner, returning the io, the bytes
read but not consumed as HTTP, and the dispatcher. -/
def H1Dispatcher.into_inner (d : H1Dispatcher T S) : T × ByteBuf × ServerDispatch S :=
  (d.conn.io, d.conn.read_buf, d.dispatch)

/-- Modelled from the spec: common::io::Rewind (not under src), a byte
stream with an optional pre-read buffer that is consumed before the inner
stream. -/
structure Rewind (T : Type) where
  inner : T
  pre : Option ByteBuf
deriving DecidableEq, Repr

/-- Modelled from the spec: Rewind::new wraps an io with no pre-read. -/
def Rewind.new (io : T) : Rewind T := ⟨io, none⟩

/-- Modelled from the spec: rewind(bytes) sets the pre-read buffer. -/
def Rewind.rewind (r : Rewind T) (bs : ByteBuf) : Rewind T :=
  { r with pre := some bs }

/-- Modelled from the spec: proto::h2::Server (not under src), the HTTP/2
driver built from a Rewind stream, a Service, the h2 settings and an
executor handle. -/
structure H2Server (T S E : Type) where
  io : Rewind T
  service : S
  builder : H2Builder
  exec : E
deriving DecidableEq, Repr

/-- Modelled from the spec: proto::h2::Server::new. -/
def H2Server.new (io : Rewind T) (service : S) (builder : H2Builder) (exec : E) :
    H2Server T S E :=
  ⟨io, service, builder, exec⟩

/-- The two-variant driver slot (enum Either in src/server/conn.rs). -/
inductive Either (A B : Type) where
  | A : A → Either A B
  | B : B → Either A B
deriving DecidableEq, Repr

/-- The fallback policy (enum Fallback in src/server/conn.rs). -/
inductive Fallback (E : Type) where
  | ToHttp2 : H2Builder → E → Fallback E
  | Http1Only
deriving DecidableEq, Repr

/-- Fallback::to_h2 from src/server/conn.rs. -/
def Fallback.to_h2 : Fallback E → Bool
  | Fallback.ToHttp2 _ _ => true
  | Fallback.Http1Only => false

/-- A future binding a connection with a Service (struct Connection in
src/server/conn.rs): the optional driver slot and the fallback policy. -/
structure Connection (T S E : Type) where
  conn : Option (Either (H1Dispatcher T S) (H2Server T S E))
  fallback : Fallback E
deriving DecidableEq, Repr

/-- Deconstructed parts of a Connection (struct Parts in
src/server/conn.rs). -/
structure Parts (T S : Type) where
  io : T
  read_buf : ByteBuf
  service : S
deriving DecidableEq, Repr

/-- Http::serve_connection from src/server/conn.rs: builds the initial
driver per the connection mode and populates the fallback policy. -/
def Http.serve_connection (self : Http E) (io : T) (service : S) : Connection T S E :=
  let either : Either (H1Dispatcher T S) (H2Server T S E) :=
    match self.mode with
    | ConnectionMode.H1Only | ConnectionMode.Fallback =>
      let conn := ProtoConn.new io
      let conn := if !self.keep_alive then conn.disable_keep_alive else conn
      let conn := if !self.h1_half_close then conn.set_disable_half_close else conn
      let conn := if !self.h1_writev then conn.set_write_strategy_flatten else conn
      let conn := conn.set_flush_pipeline self.pipeline_flush
      let conn :=
        match self.max_buf_size with
        | some max => conn.set_max_buf_size max
        | none => conn
      let sd := ServerDispatch.new service
      Either.A (H1Dispatcher.new sd conn)
    | ConnectionMode.H2Only =>
      let rewind_io := Rewind.new io
      Either.B (H2Server.new rewind_io service self.h2_builder self.exec)
  { conn := some either
    fallback :=
      if self.mode = ConnectionMode.Fallback then
        Fallback.ToHttp2 self.h2_builder self.exec
      else
        Fallback.Http1Only }

/-- Modelled from the spec: the parse-error discriminant
(crate::error::Parse, not under src); VersionH2 signals that the bytes
read so far match the HTTP/2 preface, and every other parse error is
collapsed into Other. -/
inductive ParseErr where
  | VersionH2
  | Other
deriving DecidableEq, Repr

/-- Modelled from the spec: the error-kind discriminant
(crate::error::Kind, not under src), following the error taxonomy of the
spec. -/
inductive Kind where
  | Parse : ParseErr → Kind
  | Io
  | H2
  | Accept
  | UserMakeService
deriving DecidableEq, Repr

/-- Modelled from the spec: proto::Dispatched (not under src), a driver
cycle's result: clean shutdown, or an upgrade carrying a pending handle. -/
inductive Dispatched (U : Type) where
  | Shutdown
  | Upgrade : U → Dispatched U
deriving DecidableEq, Repr

/-- Modelled from the spec: crate::upgrade::Upgraded (not under src), the
opaque handle of an io plus the buffered unread bytes handed out on
upgrade surrender. -/
structure Upgraded (T : Type) where
  io : T
  buf : ByteBuf
deriving DecidableEq, Repr

/-- Connection::try_into_parts result: the h1 path yields Parts, the h2
path yields the source's None (noneH2 here), and an empty driver slot
makes the source's unwrap of self.conn panic (panicTaken here). -/
inductive TryIntoPartsRes (T S : Type) where
  | panicTaken
  | noneH2
  | parts : Parts T S → TryIntoPartsRes T S
deriving DecidableEq, Repr

/-- Connection::try_into_parts from src/server/conn.rs. -/
def Connection.try_into_parts (self : Connection T S E) : TryIntoPartsRes T S :=
  match self.conn with
  | none => TryIntoPartsRes.panicTaken
  | some (Either.A h1) =>
    let (io, read_buf, dispatch) := h1.into_inner
    TryIntoPartsRes.parts { io := io, read_buf := read_buf, service := dispatch.into_service }
  | some (Either.B _) => TryIntoPartsRes.noneH2

/-- Connection::into_parts result: either the Parts or a panic. -/
inductive IntoPartsRes (T S : Type) where
  | panics
  | parts : Parts T S → IntoPartsRes T S
deriving DecidableEq, Repr

/-- Connection::into_parts from src/server/conn.rs: unwrap of
try_into_parts, panicking both on the h2 path and on an empty slot. -/
def Connection.into_parts (self : Connection T S E) : IntoPartsRes T S :=
  match self.try_into_parts with
  | TryIntoPartsRes.parts p => IntoPartsRes.parts p
  | TryIntoPartsRes.noneH2 => IntoPartsRes.panics
  | TryIntoPartsRes.panicTaken => IntoPartsRes.panics

/-- Connection::upgrade_h2 from src/server/conn.rs: takes the driver slot,
disassembles the h1 driver, rewinds its unread bytes into a fresh Rewind
stream around the io, and installs an h2 driver built from the recovered
service and the stored fallback builder and executor. The panic on an
empty slot, on an h2 driver, and the unreachable on Fallback::Http1Only
are modelled by none. -/
def Connection.upgrade_h2 (self : Connection T S E) : Option (Connection T S E) :=
  match self.conn with
  | none => none
  | some (Either.B _) => none
  | some (Either.A h1) =>
    match self.fallback with
    | Fallback.Http1Only => none
    | Fallback.ToHttp2 builder exec =>
      let (io, read_buf, dispatch) := h1.into_inner
      let rewind_io := Rewind.new io
      let rewind_io := rewind_io.rewind read_buf
      let h2 := H2Server.new rewind_io dispatch.into_service builder exec
      some { conn := some (Either.B h2), fallback := self.fallback }

/-- One observed result of polling the active driver inside a Connection
poll loop: the driver may be not ready, may complete a cycle with a
Dispatched value, or may fail with an error kind. -/
inductive InnerPoll (U : Type) where
  | Pending
  | Ok : Dispatched U → InnerPoll U
  | Err : Kind → InnerPoll U
deriving DecidableEq, Repr

/-- Outcome of Future::poll for Connection: not ready, Ok of unit after a
clean shutdown, Ok of unit after telling a pending upgrade it must be
handled manually, a surfaced error, or a panic of the unwrap or upgrade
machinery. -/
inductive ConnPoll (U : Type) where
  | Pending
  | OkShutdown
  | OkUpgradeManual : U → ConnPoll U
  | Error : Kind → ConnPoll U
  | Panics
deriving DecidableEq, Repr

/-- Future::poll for Connection from src/server/conn.rs, folded over the
oracle of inner driver results: Ok(Dispatched) returns Ok (calling
pending.manual() in the Upgrade case), and an error is either recovered by
upgrade_h2 when its kind is Parse(VersionH2) and the fallback allows it
(the loop then continues on the remaining results) or surfaced. -/
def Connection.poll :
    Connection T S E → List (InnerPoll U) → ConnPoll U × Connection T S E
  | c, [] => (ConnPoll.Pending, c)
  | c, r :: rest =>
    match c.conn with
    | none => (ConnPoll.Panics, c)
    | some _ =>
      match r with
      | InnerPoll.Pending => (ConnPoll.Pending, c)
      | InnerPoll.Ok Dispatched.Shutdown => (ConnPoll.OkShutdown, c)
      | InnerPoll.Ok (Dispatched.Upgrade p) => (ConnPoll.OkUpgradeManual p, c)
      | InnerPoll.Err e =>
        if e = Kind.Parse ParseErr.VersionH2 ∧ c.fallback.to_h2 = true then
          match c.upgrade_h2 with
          | some c2 => Connection.poll c2 rest
          | none => (ConnPoll.Panics, c)
        else (ConnPoll.Error e, c)

/-- A connection with upgrade support (struct UpgradeableConnection in
src/server/conn.rs). -/
structure UpgradeableConnection (T S E : Type) where
  inner : Connection T S E
deriving DecidableEq, Repr

/-- Connection::with_upgrades from src/server/conn.rs. -/
def Connection.with_upgrades (self : Connection T S E) : UpgradeableConnection T S E :=
  ⟨self⟩

/-- Outcome of Future::poll for UpgradeableConnection: not ready, Ok of
unit after a clean shutdown, Ok of unit after fulfilling the pending
upgrade with an Upgraded handle, a surfaced error, or a panic. -/
inductive UpgPoll (T U : Type) where
  | Pending
  | OkShutdown
  | OkFulfilled : U → Upgraded T → UpgPoll T U
  | Error : Kind → UpgPoll T U
  | Panics
deriving DecidableEq, Repr

/-- Future::poll for UpgradeableConnection from src/server/conn.rs, folded
over the oracle of inner driver results: on Upgrade(pending) it takes the
h1 driver out of the slot, disassembles it, and fulfills the pending
upgrade with Upgraded of the io and the unread buffer; the error handling
matches the plain Connection poll. -/
def UpgradeableConnection.poll :
    UpgradeableConnection T S E → List (InnerPoll U) →
      UpgPoll T U × UpgradeableConnection T S E
  | u, [] => (UpgPoll.Pending, u)
  | u, r :: rest =>
    match u.inner.conn with
    | none => (UpgPoll.Panics, u)
    | some _ =>
      match r with
      | InnerPoll.Pending => (UpgPoll.Pending, u)
      | InnerPoll.Ok Dispatched.Shutdown => (UpgPoll.OkShutdown, u)
      | InnerPoll.Ok (Dispatched.Upgrade p) =>
        match u.inner.conn with
        | some (Either.A h1) =>
          let (io, buf, _) := h1.into_inner
          (UpgPoll.OkFulfilled p { io := io, buf := buf },
           ⟨{ u.inner with conn := none }⟩)
        | _ => (UpgPoll.Panics, u)
      | InnerPoll.Err e =>
        if e = Kind.Parse ParseErr.VersionH2 ∧ u.inner.fallback.to_h2 = true then
          match u.inner.upgrade_h2 with
          | some c2 => UpgradeableConnection.poll ⟨c2⟩ rest
          | none => (UpgPoll.Panics, u)
        else (UpgPoll.Error e, u)

/-- One observed result of the h1 driver's poll_without_shutdown: not
ready, Ok of unit, or an error kind. -/
inductive PwsInner where
  | Pending
  | Ok
  | Err : Kind → PwsInner
deriving DecidableEq, Repr

/-- Outcome of Connection::poll_without_shutdown: not ready, Ok of unit, a
surfaced error, or a panic (the h2 arm of the source loop is an
unimplemented panic). -/
inductive PwsOut where
  | Pending
  | Ok
  | Error : Kind → PwsOut
  | Panics
deriving DecidableEq, Repr

/-- Connection::poll_without_shutdown from src/server/conn.rs, folded over
the oracle of h1 poll_without_shutdown results: each loop iteration
unwraps the driver slot and panics on the h2 variant before polling
anything; on the h1 variant an error of kind Parse(VersionH2) under
fallback triggers upgrade_h2 and the loop continues, so the very next
iteration hits the h2 panic arm. -/
def Connection.poll_without_shutdown :
    Connection T S E → List PwsInner → PwsOut × Connection T S E
  | c, oracle =>
    match c.conn with
    | none => (PwsOut.Panics, c)
    | some (Either.B _) => (PwsOut.Panics, c)
    | some (Either.A _) =>
      match oracle with
      | [] => (PwsOut.Pending, c)
      | r :: rest =>
        match r with
        | PwsInner.Pending => (PwsOut.Pending, c)
        | PwsInner.Ok => (PwsOut.Ok, c)
        | PwsInner.Err e =>
          if e = Kind.Parse ParseErr.VersionH2 ∧ c.fallback.to_h2 = true then
            match c.upgrade_h2 with
            | some c2 => Connection.poll_without_shutdown c2 rest
            | none => (PwsOut.Panics, c)
          else (PwsOut.Error e, c)

/-- A future building a new Service into a Connection (struct Connecting
in src/server/conn.rs). -/
structure Connecting (I F E : Type) where
  future : F
  io : Option I
  protocol : Http E
deriving DecidableEq, Repr

/-- A stream mapping incoming IOs to new services (struct Serve in
src/server/conn.rs). -/
structure Serve (I S E : Type) where
  incoming : I
  make_service : S
  protocol : Http E
deriving DecidableEq, Repr

/-- One observed result of the service factory's poll_ready_ref inside
Serve::poll_next. -/
inductive FactoryPoll where
  | Pending
  | Ok
  | Err
deriving DecidableEq, Repr

/-- One observed result of polling the incoming source inside
Serve::poll_next: not ready, an accepted io, a failed accept, or end of
stream. -/
inductive IncomingPoll (J : Type) where
  | Pending
  | ItemOk : J → IncomingPoll J
  | ItemErr
  | Closed
deriving DecidableEq, Repr

/-- Outcome of Stream::poll_next for Serve: not ready, an error item of
the UserMakeService class, an error item of the Accept class, a Connecting
item, or end of stream. -/
inductive ServePoll (J F E : Type) where
  | Pending
  | ErrUserMakeService
  | ErrAccept
  | Conn : Connecting J F E → ServePoll J F E
  | Closed
deriving DecidableEq, Repr

/-- Stream::poll_next for Serve from src/server/conn.rs: the factory's
readiness is consulted first (its not-ready and error results return
before the incoming source is ever polled), then the incoming source is
polled, and an accepted io is paired with the factory's service-building
future (make_service_ref) into a Connecting that carries a clone of the
protocol config. -/
def Serve.poll_next (self : Serve I S E) (factory : FactoryPoll)
    (incoming : IncomingPoll J) (make_service_ref : J → F) : ServePoll J F E :=
  match factory with
  | FactoryPoll.Pending => ServePoll.Pending
  | FactoryPoll.Err => ServePoll.ErrUserMakeService
  | FactoryPoll.Ok =>
    match incoming with
    | IncomingPoll.Pending => ServePoll.Pending
    | IncomingPoll.ItemErr => ServePoll.ErrAccept
    | IncomingPoll.ItemOk io =>
      ServePoll.Conn { future := make_service_ref io, io := some io, protocol := self.protocol }
    | IncomingPoll.Closed => ServePoll.Closed

/-- C8: the mode selectors are last-writer-wins: http1_only(true) sets
H1Only, http2_only(true) sets H2Only (so http1_only(true) followed by
http2_only(true) leaves H2Only), and calling either selector with false
restores Fallback from any previous mode; in particular http1_only(false)
restores Fallback from H1Only. -/
theorem http_mode_selectors_last_writer_wins (h : Http E) :
    ((h.http1_only true).http2_only true).mode = ConnectionMode.H2Only ∧
    (h.http1_only true).mode = ConnectionMode.H1Only ∧
    (h.http2_only true).mode = ConnectionMode.H2Only ∧
    (h.http1_only false).mode = ConnectionMode.Fallback ∧
    (h.http2_only false).mode = ConnectionMode.Fallback ∧
    ((h.http1_only true).http1_only false).mode = ConnectionMode.Fallback := by
  simp [Http.http1_only, Http.http2_only]

/-- C9: set_max_buf_size panics (returns none) for every argument below
8192 and, at 8192 or above, succeeds recording the argument as the max
buffer size while leaving every other configuration field unchanged. -/
theorem http_set_max_buf_size_minimum (h : Http E) (n : Nat) :
    (n < 8192 → Http.set_max_buf_size h n = none) ∧
    (8192 ≤ n → Http.set_max_buf_size h n = some { h with max_buf_size := some n }) := by
  constructor
  · intro hlt
    simp [Http.set_max_buf_size, MINIMUM_MAX_BUFFER_SIZE]
    omega
  · intro hge
    simp [Http.set_max_buf_size, MINIMUM_MAX_BUFFER_SIZE]
    omega

/-- Witness for C9 at the boundary: 8191 fails loudly and 8192 succeeds. -/
theorem http_set_max_buf_size_minimum_witness :
    Http.set_max_buf_size Http.new 8191 = none ∧
    Http.set_max_buf_size Http.new 8192 =
      some { Http.new with max_buf_size := some 8192 } :=
  ⟨(http_set_max_buf_size_minimum Http.new 8191).1 (by decide),
   (http_set_max_buf_size_minimum Http.new 8192).2 (by decide)⟩

/-- C10: passing none to the three HTTP/2 settings setters is an identity
on the configuration, so setting some v and then none leaves v as the
configured value of the corresponding h2 setting. -/
theorem http2_settings_none_is_identity (h : Http E) (v : Nat) :
    h.http2_initial_stream_window_size none = h ∧
    h.http2_initial_connection_window_size none = h ∧
    h.http2_max_concurrent_streams none = h ∧
    ((h.http2_initial_stream_window_size (some v)).http2_initial_stream_window_size
        none).h2_builder.initial_window_size = v ∧
    ((h.http2_initial_connection_window_size
        (some v)).http2_initial_connection_window_size
        none).h2_builder.initial_connection_window_size = v ∧
    ((h.http2_max_concurrent_streams (some v)).http2_max_concurrent_streams
        none).h2_builder.max_concurrent_streams = some v := by
  simp [Http.http2_initial_stream_window_size,
    Http.http2_initial_connection_window_size, Http.http2_max_concurrent_streams,
    H2Builder.set_initial_window_size, H2Builder.set_initial_connection_window_size,
    H2Builder.set_max_concurrent_streams]

/-- C7: each poll of Serve consults the service factory first - a
not-ready factory leaves the stream pending and a factory error yields a
UserMakeService error item, in both cases whatever the incoming source
would do - and only under a ready factory is the incoming source polled,
a failed accept yielding an Accept error item and an accepted io yielding
a Connecting that pairs the io with the factory's service-building
future. -/
theorem serve_poll_next_factory_first (sv : Serve I S E)
    (inc : IncomingPoll J) (mk : J → F) (io : J) :
    Serve.poll_next sv FactoryPoll.Pending inc mk = ServePoll.Pending ∧
    Serve.poll_next sv FactoryPoll.Err inc mk = ServePoll.ErrUserMakeService ∧
    Serve.poll_next sv FactoryPoll.Ok IncomingPoll.ItemErr mk = ServePoll.ErrAccept ∧
    Serve.poll_next sv FactoryPoll.Ok (IncomingPoll.ItemOk io) mk =
      ServePoll.Conn { future := mk io, io := some io, protocol := sv.protocol } := by
  simp [Serve.poll_next]

/-- C1: a Connection in the h1 phase with fallback ToHttp2 that observes a
Parse(VersionH2) error from the h1 driver rebuilds itself within the same
poll call: the io, the unread read buffer and the dispatcher are pulled
out of the h1 driver, the io is wrapped in a Rewind stream whose pre-read
buffer is exactly that read buffer, the recovered Service together with
the stored h2 settings and executor handle form the new active h2 driver,
and polling resumes on the remaining driver results - so every byte the
h1 driver read but did not consume becomes the first bytes the h2 driver
reads. -/
theorem connection_poll_fallback_transition (h1 : H1Dispatcher T S) (b : H2Builder)
    (ex : E) (rest : List (InnerPoll U)) :
    Connection.poll { conn := some (Either.A h1), fallback := Fallback.ToHttp2 b ex }
        (InnerPoll.Err (Kind.Parse ParseErr.VersionH2) :: rest) =
      Connection.poll
        { conn := some (Either.B (H2Server.new
            { inner := h1.conn.io, pre := some h1.conn.read_buf }
            h1.dispatch.service b ex)),
          fallback := Fallback.ToHttp2 b ex } rest := by
  simp [Connection.poll, Connection.upgrade_h2, H1Dispatcher.into_inner,
    ServerDispatch.into_service, Rewind.new, Rewind.rewind, H2Server.new,
    Fallback.to_h2]

/-- C3: polling a Connection recovers locally only an error of kind
Parse(VersionH2) and only under fallback ToHttp2: for any live connection,
an error result that is not Parse(VersionH2)-under-fallback is returned
from the poll that raised it with the connection state unchanged (no
protocol transition); in particular a connection constructed with mode
H1Only surfaces Parse(VersionH2) itself. -/
theorem connection_poll_surfaces_other_errors (c : Connection T S E) (e : Kind)
    (rest : List (InnerPoll U)) (h : Http E) (io : T) (s : S) :
    (c.conn.isSome = true →
      ¬(e = Kind.Parse ParseErr.VersionH2 ∧ c.fallback.to_h2 = true) →
      Connection.poll c (InnerPoll.Err e :: rest) = (ConnPoll.Error e, c)) ∧
    (h.mode = ConnectionMode.H1Only →
      Connection.poll (h.serve_connection io s)
          (InnerPoll.Err (Kind.Parse ParseErr.VersionH2) :: rest) =
        (ConnPoll.Error (Kind.Parse ParseErr.VersionH2), h.serve_connection io s)) := by
  constructor
  · intro hlive hnr
    cases hc : c.conn with
    | none => rw [hc] at hlive; simp at hlive
    | some a =>
      simp only [Connection.poll, hc]
      rw [if_neg hnr]
  · intro hm
    simp [Connection.poll, Http.serve_connection, hm, Fallback.to_h2]

/-- Witness for C3: an h1-phase connection with fallback Http1Only, and a
connection built in H1Only mode, both surface Parse(VersionH2). -/
theorem connection_poll_surfaces_other_errors_witness :
    Connection.poll (U := Nat)
        { conn := some (Either.A ⟨ProtoConn.new (0 : Nat), ⟨(0 : Nat)⟩⟩),
          fallback := (Fallback.Http1Only : Fallback ExecHandle) }
        [InnerPoll.Err (Kind.Parse ParseErr.VersionH2)] =
      (ConnPoll.Error (Kind.Parse ParseErr.VersionH2),
       { conn := some (Either.A ⟨ProtoConn.new 0, ⟨0⟩⟩),
         fallback := Fallback.Http1Only }) ∧
    Connection.poll (U := Nat)
        ((Http.new.http1_only true).serve_connection (0 : Nat) (0 : Nat))
        [InnerPoll.Err (Kind.Parse ParseErr.VersionH2)] =
      (ConnPoll.Error (Kind.Parse ParseErr.VersionH2),
       (Http.new.http1_only true).serve_connection 0 0) := by
  have h := connection_poll_surfaces_other_errors
    (U := Nat)
    { conn := some (Either.A ⟨ProtoConn.new (0 : Nat), ⟨(0 : Nat)⟩⟩),
      fallback := (Fallback.Http1Only : Fallback ExecHandle) }
    (Kind.Parse ParseErr.VersionH2) [] (Http.new.http1_only true) 0 0
  exact ⟨h.1 rfl (by decide), h.2 rfl⟩

/-- C4: when the h1 driver reports Upgrade(pending), polling the
UpgradeableConnection takes the h1 driver out of the slot, fulfills the
pending upgrade with an Upgraded handle built from the io and the unread
buffered bytes and returns Ok, while polling the plain Connection instead
notifies the pending upgrade that it must be handled manually and also
returns Ok. -/
theorem upgrade_pending_handling (h1 : H1Dispatcher T S) (fb : Fallback E)
    (p : U) (rest : List (InnerPoll U)) :
    UpgradeableConnection.poll ⟨{ conn := some (Either.A h1), fallback := fb }⟩
        (InnerPoll.Ok (Dispatched.Upgrade p) :: rest) =
      (UpgPoll.OkFulfilled p { io := h1.conn.io, buf := h1.conn.read_buf },
       ⟨{ conn := none, fallback := fb }⟩) ∧
    Connection.poll { conn := some (Either.A h1), fallback := fb }
        (InnerPoll.Ok (Dispatched.Upgrade p) :: rest) =
      (ConnPoll.OkUpgradeManual p, { conn := some (Either.A h1), fallback := fb }) := by
  simp [UpgradeableConnection.poll, Connection.poll, H1Dispatcher.into_inner]

/-- C5: try_into_parts on an h1-phase Connection returns the Parts holding
the io, the bytes read but not processed as HTTP, and the Service
recovered from the dispatcher; on an h2-phase Connection it returns the
absent result, and into_parts panics there. -/
theorem connection_try_into_parts_spec (h1 : H1Dispatcher T S) (h2 : H2Server T S E)
    (fb fb2 : Fallback E) :
    Connection.try_into_parts { conn := some (Either.A h1), fallback := fb } =
      TryIntoPartsRes.parts
        { io := h1.conn.io, read_buf := h1.conn.read_buf,
          service := h1.dispatch.service } ∧
    Connection.try_into_parts { conn := some (Either.B h2), fallback := fb2 } =
      TryIntoPartsRes.noneH2 ∧
    Connection.into_parts { conn := some (Either.B h2), fallback := fb2 } =
      IntoPartsRes.panics := by
  simp [Connection.try_into_parts, Connection.into_parts, H1Dispatcher.into_inner,
    ServerDispatch.into_service]

/-- C6: poll_without_shutdown drives only the h1 path and panics whenever
the active driver is the h2 variant: both on a connection constructed in
H2Only mode (for any sequence of driver results), and when the call itself
performs the h1-to-h2 fallback transition after a Parse(VersionH2) error
under fallback ToHttp2, in which case it panics on the next loop iteration
with the freshly installed h2 driver instead of driving it. -/
theorem poll_without_shutdown_panics_on_h2 (h : Http E) (io : T) (s : S)
    (h1 : H1Dispatcher T S) (b : H2Builder) (ex : E)
    (oracle rest : List PwsInner) :
    (h.mode = ConnectionMode.H2Only →
      Connection.poll_without_shutdown (h.serve_connection io s) oracle =
        (PwsOut.Panics, h.serve_connection io s)) ∧
    (Connection.poll_without_shutdown
        { conn := some (Either.A h1), fallback := Fallback.ToHttp2 b ex }
        (PwsInner.Err (Kind.Parse ParseErr.VersionH2) :: rest) =
      (PwsOut.Panics,
       { conn := some (Either.B (H2Server.new
           { inner := h1.conn.io, pre := some h1.conn.read_buf }
           h1.dispatch.service b ex)),
         fallback := Fallback.ToHttp2 b ex })) := by
  constructor
  · intro hm
    cases oracle <;>
      simp [Connection.poll_without_shutdown, Http.serve_connection, hm]
  · cases rest <;>
      simp [Connection.poll_without_shutdown, Connection.upgrade_h2,
        H1Dispatcher.into_inner, ServerDispatch.into_service, Rewind.new,
        Rewind.rewind, H2Server.new, Fallback.to_h2]

/-- Witness for C6: an H2Only-built connection panics at once, and an
h1-phase connection under fallback panics right after the in-call
transition. -/
theorem poll_without_shutdown_panics_on_h2_witness :
    Connection.poll_without_shutdown
        ((Http.new.http2_only true).serve_connection (0 : Nat) (0 : Nat)) [] =
      (PwsOut.Panics, (Http.new.http2_only true).serve_connection 0 0) ∧
    Connection.poll_without_shutdown
        { conn := some (Either.A ⟨ProtoConn.new (0 : Nat), ⟨(0 : Nat)⟩⟩),
          fallback := Fallback.ToHttp2 {} ExecHandle.Default }
        [PwsInner.Err (Kind.Parse ParseErr.VersionH2)] =
      (PwsOut.Panics,
       { conn := some (Either.B (H2Server.new { inner := 0, pre := some [] }
           0 {} ExecHandle.Default)),
         fallback := Fallback.ToHttp2 {} ExecHandle.Default }) := by
  have h := poll_without_shutdown_panics_on_h2 (Http.new.http2_only true)
    (0 : Nat) (0 : Nat) { conn := ProtoConn.new 0, dispatch := ⟨0⟩ } {}
    ExecHandle.Default [] []
  exact ⟨h.1 rfl, h.2⟩

/-- C2: serve_connection follows the construction rule: under mode H1Only
or Fallback the connection holds an h1 dispatcher built directly over the
io whose keep-alive, half-close, write strategy, pipeline flush and max
buffer size come from the config; under mode H2Only it holds an h2 driver
over a Rewind stream with no pre-read buffer; and the fallback policy is
ToHttp2 of the h2 settings and executor exactly when the mode is Fallback,
Http1Only otherwise. -/
theorem serve_connection_construction (h : Http E) (io : T) (s : S) :
    (h.mode = ConnectionMode.H1Only ∨ h.mode = ConnectionMode.Fallback →
      (h.serve_connection io s).conn = some (Either.A
        { conn := { io := io, read_buf := [], keep_alive := h.keep_alive,
                    half_close := h.h1_half_close, writev := h.h1_writev,
                    flush_pipeline := h.pipeline_flush,
                    max_buf_size := h.max_buf_size },
          dispatch := { service := s } })) ∧
    (h.mode = ConnectionMode.H2Only →
      (h.serve_connection io s).conn = some (Either.B
        { io := { inner := io, pre := none }, service := s,
          builder := h.h2_builder, exec := h.exec })) ∧
    ((h.serve_connection io s).fallback =
      if h.mode = ConnectionMode.Fallback then Fallback.ToHttp2 h.h2_builder h.exec
      else Fallback.Http1Only) := by
  obtain ⟨ex, hc, wv, hb, mode, ka, mb, pf⟩ := h
  refine ⟨?_, ?_, ?_⟩
  · intro hm
    rcases hm with hm | hm <;> subst hm <;>
      cases ka <;> cases hc <;> cases wv <;> cases mb <;>
        simp [Http.serve_connection, ProtoConn.new, ProtoConn.disable_keep_alive,
          ProtoConn.set_disable_half_close, ProtoConn.set_write_strategy_flatten,
          ProtoConn.set_flush_pipeline, ProtoConn.set_max_buf_size,
          ServerDispatch.new, H1Dispatcher.new]
  · intro hm
    subst hm
    simp [Http.serve_connection, Rewind.new, H2Server.new]
  · cases mode <;> simp [Http.serve_connection]

/-- Witness for C2: the default config (mode Fallback) yields an h1
dispatcher with the default tunables, and the H2Only config yields an h2
driver over a Rewind stream with no pre-read. -/
theorem serve_connection_construction_witness :
    (Http.new.serve_connection (0 : Nat) (0 : Nat)).conn = some (Either.A
      { conn := { io := 0, read_buf := [], keep_alive := true, half_close := true,
                  writev := true, flush_pipeline := false, max_buf_size := none },
        dispatch := { service := 0 } }) ∧
    ((Http.new.http2_only true).serve_connection (0 : Nat) (0 : Nat)).conn =
      some (Either.B
        { io := { inner := 0, pre := none }, service := 0,
          builder := {}, exec := ExecHandle.Default }) := by
  refine ⟨?_, ?_⟩
  · have h := (serve_connection_construction Http.new (0 : Nat) (0 : Nat)).1
      (Or.inr rfl)
    simpa using h
  · have h := (serve_connection_construction (Http.new.http2_only true)
      (0 : Nat) (0 : Nat)).2.1 rfl
    simpa using h

end HyperServerConn
